import Mathlib

/-!
Shallow embedding of the Swarm orchestration core (src/core/src/swarm.rs).

The Swarm composes a transport, a pluggable network behaviour and a topology
around an external connection manager (the raw swarm).  Only the code of
swarm.rs is in the repository excerpt; the transport, the raw swarm and the
topology are external collaborators, so they are embedded as records of
abstract operations (one field per method the Swarm calls), and concrete
small instances are provided for evaluation.

Peer ids, multiaddresses, endpoints and event payloads are opaque to the
Swarm: they are represented by natural numbers.  Every operation of the
embedding additionally returns the list of observable effects it performs
(behaviour callbacks and connection-manager calls), in the order the source
performs them, so that ordering and counting properties can be stated.
-/

/-- Opaque stable identifier of a remote peer. -/
abbrev PeerId := Nat

/-- Structured network location; opaque to the Swarm. -/
abbrev Multiaddr := Nat

/-- Record of which side opened a connection and through which address;
opaque to the Swarm, which only forwards it to callbacks. -/
abbrev ConnectedPoint := Nat

/-- A protocols handler, as far as the Swarm observes it: the construction
of the Swarm reads the protocol names of the handler's listen protocol
(handler.listen_protocol().protocol_info(), each name taken as a byte
vector); everything else about the handler is opaque and is merely passed
on to the connection manager. -/
structure ProtocolsHandler where
  protocolInfo : List (List Nat)
  deriving Repr, DecidableEq

/-- Lifecycle events produced by the connection manager's poll
(RawSwarmEvent in the source). -/
inductive RawSwarmEvent where
  | NodeEvent (peer_id : PeerId) (event : Nat)
  | Connected (peer_id : PeerId) (endpoint : ConnectedPoint)
  | NodeClosed (peer_id : PeerId) (endpoint : ConnectedPoint)
  | NodeError (peer_id : PeerId) (endpoint : ConnectedPoint)
  | Replaced (peer_id : PeerId) (closed_endpoint : ConnectedPoint) (endpoint : ConnectedPoint)
  | IncomingConnection (incoming : Nat)
  | ListenerClosed
  | IncomingConnectionError
  | DialError
  | UnknownPeerDialError
  deriving Repr, DecidableEq

/-- Action a behaviour may return from one poll call
(NetworkBehaviourAction in the source). -/
inductive NetworkBehaviourAction where
  | GenerateEvent (event : Nat)
  | DialAddress (address : Multiaddr)
  | DialPeer (peer_id : PeerId)
  | SendEvent (peer_id : PeerId) (event : Nat)
  | ReportObservedAddr (address : Multiaddr)
  deriving Repr, DecidableEq

/-- State of one peer as reported by the connection manager:
raw_swarm.peer(p).as_connected() is some exactly in the connected state and
raw_swarm.peer(p).as_not_connected() is some exactly in the notConnected
state (a peer being dialed is in pendingConnect and both return none). -/
inductive PeerState where
  | connected
  | pendingConnect
  | notConnected
  deriving Repr, DecidableEq

/-- Parameters passed to the behaviour's poll (PollParameters in the
source): mutable topology access, the frozen supported-protocol list, the
listened-address list and the transport's nat_traversal closure. -/
structure PollParameters (τ : Type) where
  topology : τ
  supported_protocols : List (List Nat)
  listened_addrs : List Multiaddr
  nat_traversal : Multiaddr → Multiaddr → Option Multiaddr

/-- The NetworkBehaviour trait: a pluggable policy over a behaviour state
type σ.  Since the behaviour's poll receives a mutable reference to the
topology inside the poll parameters, poll returns the updated topology
value alongside the updated behaviour state and the optional action
(none models Async::NotReady). -/
structure NetworkBehaviour (σ τ : Type) where
  new_handler : σ → σ × ProtocolsHandler
  inject_connected : σ → PeerId → ConnectedPoint → σ
  inject_disconnected : σ → PeerId → ConnectedPoint → σ
  inject_node_event : σ → PeerId → Nat → σ
  poll : σ → PollParameters τ → σ × τ × Option NetworkBehaviourAction

/-- Modelled from the spec: the Topology trait is an external collaborator
(peer address book and local identity holder); only the four methods the
Swarm calls are modelled, over an abstract topology state type τ. -/
structure TopologyIface (τ : Type) where
  local_peer_id : τ → PeerId
  local_public_key : τ → Nat
  addresses_of_peer : τ → PeerId → List Multiaddr
  add_local_external_addrs : τ → List Multiaddr → τ

/-- Modelled from the spec: the connection manager (RawSwarm) is an
external collaborator owning the pool of live and pending connections and
the listeners; only the interface the Swarm consumes is modelled, over an
abstract manager state type ρ.  listen_on returns the possibly rewritten
bound address on success and none on failure (per the spec, a failing
listen rejects the original address and changes nothing observable at the
Swarm level); dial returns the rejected address on failure and none on
success; poll returns at most one lifecycle event (none models
Async::NotReady); transport_nat is the nat_traversal closure of the
transport the manager was built from, and nat_traversal is the manager's
own listener-based translation used for observed addresses. -/
structure RawSwarmIface (ρ : Type) where
  new : PeerId → ρ
  listen_on : ρ → Multiaddr → ρ × Option Multiaddr
  dial : ρ → Multiaddr → ProtocolsHandler → ρ × Option Multiaddr
  peerState : ρ → PeerId → PeerState
  connect_iter : ρ → PeerId → List Multiaddr → ProtocolsHandler → ρ
  send_event : ρ → PeerId → Nat → ρ
  accept : ρ → Nat → ProtocolsHandler → ρ
  poll : ρ → ρ × Option RawSwarmEvent
  nat_traversal : ρ → Multiaddr → List Multiaddr
  transport_nat : Multiaddr → Multiaddr → Option Multiaddr
  listeners : ρ → List Multiaddr

/-- Observable effects performed by the Swarm: behaviour callbacks
(cb prefixed) and calls into the connection manager (mgr prefixed), in the
order the source performs them. -/
inductive Effect where
  | cbNodeEvent (p : PeerId) (e : Nat)
  | cbConnected (p : PeerId) (ep : ConnectedPoint)
  | cbDisconnected (p : PeerId) (ep : ConnectedPoint)
  | cbNewHandler
  | mgrAccept (i : Nat)
  | mgrDial (a : Multiaddr)
  | mgrConnectIter (p : PeerId) (addrs : List Multiaddr)
  | mgrSendEvent (p : PeerId) (e : Nat)
  deriving Repr, DecidableEq

/-- Effects that are dial calls into the connection manager: an
address-only dial (raw_swarm.dial) or a known-peer dial
(peer.connect_iter). -/
def isMgrDialEffect : Effect → Bool
  | Effect.mgrDial _ => true
  | Effect.mgrConnectIter _ _ => true
  | _ => false

/-- State owned by the Swarm (the Swarm struct in the source): the raw
swarm, the behaviour state, the topology, the frozen supported-protocol
list and the listened-address list. -/
structure Swarm (σ τ ρ : Type) where
  raw_swarm : ρ
  behaviour : σ
  topology : τ
  supported_protocols : List (List Nat)
  listened_addrs : List Multiaddr
  deriving DecidableEq

/-- Swarm::new: builds one fresh handler from the behaviour, freezes its
protocol-name list as the supported-protocol set, builds the raw swarm
from the topology's local peer id, and starts with an empty
listened-address list. -/
def Swarm.new {σ τ ρ : Type} (B : NetworkBehaviour σ τ) (T : TopologyIface τ)
    (R : RawSwarmIface ρ) (behaviour0 : σ) (topology0 : τ) : Swarm σ τ ρ :=
  let h := B.new_handler behaviour0
  { raw_swarm := R.new (T.local_peer_id topology0)
    behaviour := h.1
    topology := topology0
    supported_protocols := h.2.protocolInfo
    listened_addrs := [] }

/-- Swarm::listen_on: delegates to the raw swarm; on success pushes the
bound address onto listened_addrs and returns it, on failure returns the
rejected original address. -/
def Swarm.listen_on {σ τ ρ : Type} (R : RawSwarmIface ρ) (me : Swarm σ τ ρ)
    (addr : Multiaddr) : Swarm σ τ ρ × Except Multiaddr Multiaddr :=
  match R.listen_on me.raw_swarm addr with
  | (raw, some bound) =>
      ({ me with raw_swarm := raw, listened_addrs := me.listened_addrs ++ [bound] },
       Except.ok bound)
  | (raw, none) => ({ me with raw_swarm := raw }, Except.error addr)

/-- Swarm::dial_addr: requests a fresh handler from the behaviour and
delegates an address-only dial to the raw swarm; the optional returned
address is the rejected address on failure. -/
def Swarm.dial_addr {σ τ ρ : Type} (B : NetworkBehaviour σ τ) (R : RawSwarmIface ρ)
    (me : Swarm σ τ ρ) (addr : Multiaddr) :
    Swarm σ τ ρ × Option Multiaddr × List Effect :=
  let h := B.new_handler me.behaviour
  let d := R.dial me.raw_swarm addr h.2
  ({ me with behaviour := h.1, raw_swarm := d.1 },
   d.2, [Effect.cbNewHandler, Effect.mgrDial addr])

/-- Swarm::dial: looks up the peer's addresses in the topology, requests a
fresh handler from the behaviour, and only if the raw swarm reports the
peer as not connected (neither connected nor pending) starts a dial over
the candidate addresses; otherwise nothing further happens. -/
def Swarm.dial {σ τ ρ : Type} (B : NetworkBehaviour σ τ) (T : TopologyIface τ)
    (R : RawSwarmIface ρ) (me : Swarm σ τ ρ) (peer_id : PeerId) :
    Swarm σ τ ρ × List Effect :=
  let addrs := T.addresses_of_peer me.topology peer_id
  let h := B.new_handler me.behaviour
  let me1 : Swarm σ τ ρ := { me with behaviour := h.1 }
  match R.peerState me1.raw_swarm peer_id with
  | PeerState.notConnected =>
      ({ me1 with raw_swarm := R.connect_iter me1.raw_swarm peer_id addrs h.2 },
       [Effect.cbNewHandler, Effect.mgrConnectIter peer_id addrs])
  | _ => (me1, [Effect.cbNewHandler])

/-- The dispatch block of the drive loop (the match on raw_swarm.poll()
inside Stream::poll): translates one lifecycle event into behaviour
callbacks.  Closed and errored connections both become a disconnected
callback; a replaced connection becomes disconnected for the old endpoint
immediately followed by connected for the new one; an incoming connection
requests a fresh handler and accepts unconditionally; the four remaining
variants are absorbed with no callback. -/
def injectEvent {σ τ ρ : Type} (B : NetworkBehaviour σ τ) (R : RawSwarmIface ρ)
    (me : Swarm σ τ ρ) : RawSwarmEvent → Swarm σ τ ρ × List Effect
  | RawSwarmEvent.NodeEvent p e =>
      ({ me with behaviour := B.inject_node_event me.behaviour p e },
       [Effect.cbNodeEvent p e])
  | RawSwarmEvent.Connected p ep =>
      ({ me with behaviour := B.inject_connected me.behaviour p ep },
       [Effect.cbConnected p ep])
  | RawSwarmEvent.NodeClosed p ep =>
      ({ me with behaviour := B.inject_disconnected me.behaviour p ep },
       [Effect.cbDisconnected p ep])
  | RawSwarmEvent.NodeError p ep =>
      ({ me with behaviour := B.inject_disconnected me.behaviour p ep },
       [Effect.cbDisconnected p ep])
  | RawSwarmEvent.Replaced p cep ep =>
      let b1 := B.inject_disconnected me.behaviour p cep
      let b2 := B.inject_connected b1 p ep
      ({ me with behaviour := b2 },
       [Effect.cbDisconnected p cep, Effect.cbConnected p ep])
  | RawSwarmEvent.IncomingConnection i =>
      let h := B.new_handler me.behaviour
      ({ me with behaviour := h.1, raw_swarm := R.accept me.raw_swarm i h.2 },
       [Effect.cbNewHandler, Effect.mgrAccept i])
  | RawSwarmEvent.ListenerClosed => (me, [])
  | RawSwarmEvent.IncomingConnectionError => (me, [])
  | RawSwarmEvent.DialError => (me, [])
  | RawSwarmEvent.UnknownPeerDialError => (me, [])

/-- Result of one external pull of the Swarm, mirroring the Rust return
type Result of Async of Option: readyOk is Ok(Ready(Some(event))),
readyEnd is Ok(Ready(None)) (end of sequence), notReady is Ok(NotReady)
and ioError is Err. -/
inductive PollOutcome where
  | readyOk (event : Nat)
  | readyEnd
  | notReady
  | ioError
  deriving Repr, DecidableEq

/-- Step 1 of a sub-cycle: poll the raw swarm once and dispatch any
lifecycle event; the Bool is the raw_swarm_not_ready flag of the source. -/
def pollOnce {σ τ ρ : Type} (B : NetworkBehaviour σ τ) (R : RawSwarmIface ρ)
    (me : Swarm σ τ ρ) : Swarm σ τ ρ × Bool × List Effect :=
  match R.poll me.raw_swarm with
  | (raw, none) => ({ me with raw_swarm := raw }, true, [])
  | (raw, some ev) =>
      let r := injectEvent B R { me with raw_swarm := raw } ev
      (r.1, false, r.2)

/-- The fresh poll context built for the behaviour each sub-cycle: current
topology, the frozen supported-protocol list, the listened addresses and
the transport's nat_traversal closure. -/
def mkParams {σ τ ρ : Type} (R : RawSwarmIface ρ) (me : Swarm σ τ ρ) :
    PollParameters τ :=
  { topology := me.topology
    supported_protocols := me.supported_protocols
    listened_addrs := me.listened_addrs
    nat_traversal := R.transport_nat }

/-- Interpretation of the behaviour's poll result (the second match of the
drive loop).  The third component is none when the loop restarts at step 1
and some outcome when the pull returns to the caller. -/
def applyAction {σ τ ρ : Type} (B : NetworkBehaviour σ τ) (T : TopologyIface τ)
    (R : RawSwarmIface ρ) (me : Swarm σ τ ρ) (raw_swarm_not_ready : Bool) :
    Option NetworkBehaviourAction → Swarm σ τ ρ × List Effect × Option PollOutcome
  | none =>
      if raw_swarm_not_ready then (me, [], some PollOutcome.notReady)
      else (me, [], none)
  | some (NetworkBehaviourAction.GenerateEvent e) =>
      (me, [], some (PollOutcome.readyOk e))
  | some (NetworkBehaviourAction.DialAddress a) =>
      let r := Swarm.dial_addr B R me a
      (r.1, r.2.2, none)
  | some (NetworkBehaviourAction.DialPeer p) =>
      let r := Swarm.dial B T R me p
      (r.1, r.2, none)
  | some (NetworkBehaviourAction.SendEvent p e) =>
      match R.peerState me.raw_swarm p with
      | PeerState.connected =>
          ({ me with raw_swarm := R.send_event me.raw_swarm p e },
           [Effect.mgrSendEvent p e], none)
      | _ => (me, [], none)
  | some (NetworkBehaviourAction.ReportObservedAddr a) =>
      ({ me with topology := T.add_local_external_addrs me.topology
                   (R.nat_traversal me.raw_swarm a) },
       [], none)

/-- One sub-cycle of the drive loop (one iteration of the loop inside
Stream::poll): poll the manager once and dispatch, poll the behaviour once
on a fresh context, then interpret its result. -/
def subCycle {σ τ ρ : Type} (B : NetworkBehaviour σ τ) (T : TopologyIface τ)
    (R : RawSwarmIface ρ) (me : Swarm σ τ ρ) :
    Swarm σ τ ρ × List Effect × Option PollOutcome :=
  let s1 := pollOnce B R me
  let bp := B.poll s1.1.behaviour (mkParams R s1.1)
  let me2 : Swarm σ τ ρ := { s1.1 with behaviour := bp.1, topology := bp.2.1 }
  let r := applyAction B T R me2 s1.2.1 bp.2.2
  (r.1, s1.2.2 ++ r.2.1, r.2.2)

/-- The Swarm state after step 1 and the behaviour poll of one sub-cycle. -/
def subCycleMid {σ τ ρ : Type} (B : NetworkBehaviour σ τ) (R : RawSwarmIface ρ)
    (me : Swarm σ τ ρ) : Swarm σ τ ρ :=
  let s1 := pollOnce B R me
  let bp := B.poll s1.1.behaviour (mkParams R s1.1)
  { s1.1 with behaviour := bp.1, topology := bp.2.1 }

/-- The action the behaviour returns during the sub-cycle started at the
given state (none for Async::NotReady). -/
def subCycleAction {σ τ ρ : Type} (B : NetworkBehaviour σ τ) (R : RawSwarmIface ρ)
    (me : Swarm σ τ ρ) : Option NetworkBehaviourAction :=
  let s1 := pollOnce B R me
  (B.poll s1.1.behaviour (mkParams R s1.1)).2.2

/-- The effects the interpretation of the behaviour's action performs
during the sub-cycle started at the given state. -/
def subCycleActionTrace {σ τ ρ : Type} (B : NetworkBehaviour σ τ)
    (T : TopologyIface τ) (R : RawSwarmIface ρ) (me : Swarm σ τ ρ) : List Effect :=
  (applyAction B T R (subCycleMid B R me) (pollOnce B R me).2.1
    (subCycleAction B R me)).2.1

/-- The drive loop with explicit fuel bounding the number of sub-cycles of
one external pull: returns the final state, the accumulated effect trace
and the outcome delivered to the caller (none when the fuel ran out before
the loop returned). -/
def pollFuel {σ τ ρ : Type} (B : NetworkBehaviour σ τ) (T : TopologyIface τ)
    (R : RawSwarmIface ρ) : Nat → Swarm σ τ ρ → Swarm σ τ ρ × List Effect × Option PollOutcome
  | 0, me => (me, [], none)
  | n + 1, me =>
      let r := subCycle B T R me
      match r.2.2 with
      | some out => (r.1, r.2.1, some out)
      | none =>
          let rest := pollFuel B T R n r.1
          (rest.1, r.2.1 ++ rest.2.1, rest.2.2)

/-- Modelled from the spec: the fixed callback mapping of one lifecycle
event, written from the specification's words (node-level event to the
node-event callback; connected to the connected callback; closed or
errored to the disconnected callback; replaced to disconnected for the old
endpoint immediately followed by connected for the new one; incoming
connection to one fresh handler request and an unconditional accept; the
four remaining variants absorbed with no callback), to be compared with
the dispatch the source performs. -/
def specCallbacks : RawSwarmEvent → List Effect
  | RawSwarmEvent.NodeEvent p e => [Effect.cbNodeEvent p e]
  | RawSwarmEvent.Connected p ep => [Effect.cbConnected p ep]
  | RawSwarmEvent.NodeClosed p ep => [Effect.cbDisconnected p ep]
  | RawSwarmEvent.NodeError p ep => [Effect.cbDisconnected p ep]
  | RawSwarmEvent.Replaced p cep ep =>
      [Effect.cbDisconnected p cep, Effect.cbConnected p ep]
  | RawSwarmEvent.IncomingConnection i => [Effect.cbNewHandler, Effect.mgrAccept i]
  | RawSwarmEvent.ListenerClosed => []
  | RawSwarmEvent.IncomingConnectionError => []
  | RawSwarmEvent.DialError => []
  | RawSwarmEvent.UnknownPeerDialError => []

/-- Folds Swarm::listen_on over a sequence of requested addresses,
collecting the per-call results. -/
def listenSequence {σ τ ρ : Type} (R : RawSwarmIface ρ) :
    Swarm σ τ ρ → List Multiaddr → Swarm σ τ ρ × List (Except Multiaddr Multiaddr)
  | me, [] => (me, [])
  | me, a :: rest =>
      let r := Swarm.listen_on R me a
      let rr := listenSequence R r.1 rest
      (rr.1, r.2 :: rr.2)

/-- Number of successful results in a list of listen results. -/
def okCount (rs : List (Except Multiaddr Multiaddr)) : Nat :=
  rs.countP fun r => match r with
    | Except.ok _ => true
    | Except.error _ => false

/-- A pull outcome permitted by the Stream contract of the Swarm: anything
except end of sequence and an io error. -/
def outcomeOk : Option PollOutcome → Bool
  | some PollOutcome.readyEnd => false
  | some PollOutcome.ioError => false
  | _ => true

/-- Concrete connection-manager state used for evaluation: a script of
lifecycle events (popped one per poll, none once exhausted) and the lists
of connected and pending peers. -/
structure MgrState where
  script : List (Option RawSwarmEvent)
  connectedPeers : List PeerId
  pendingPeers : List PeerId
  deriving Repr, DecidableEq

/-- Concrete connection-manager instance over MgrState: listen_on succeeds
on even addresses (binding address plus one hundred), an address-only dial
fails on odd addresses, a known-peer dial marks the peer pending, and poll
pops the script. -/
def mgrIface : RawSwarmIface MgrState where
  new := fun _ => { script := [], connectedPeers := [], pendingPeers := [] }
  listen_on := fun s a => if a % 2 = 0 then (s, some (a + 100)) else (s, none)
  dial := fun s a _ => if a % 2 = 0 then (s, none) else (s, some a)
  peerState := fun s p =>
    if p ∈ s.connectedPeers then PeerState.connected
    else if p ∈ s.pendingPeers then PeerState.pendingConnect
    else PeerState.notConnected
  connect_iter := fun s p _ _ => { s with pendingPeers := p :: s.pendingPeers }
  send_event := fun s _ _ => s
  accept := fun s _ _ => s
  poll := fun s =>
    match s.script with
    | [] => (s, none)
    | e :: rest => ({ s with script := rest }, e)
  nat_traversal := fun _ a => [a + 1]
  transport_nat := fun a b => if a ≤ b then some (a + b) else none
  listeners := fun _ => []

/-- Concrete topology instance: the topology state is the list of
registered external addresses; every peer p is reachable at the single
address ten times p. -/
def topoIface : TopologyIface (List Multiaddr) where
  local_peer_id := fun _ => 0
  local_public_key := fun _ => 0
  addresses_of_peer := fun _ p => [p * 10]
  add_local_external_addrs := fun t addrs => t ++ addrs

/-- Concrete quiet behaviour: counts its callback invocations in a Nat
state and always reports not ready from poll. -/
def bQuiet : NetworkBehaviour Nat (List Multiaddr) where
  new_handler := fun s => (s + 1, { protocolInfo := [[1], [2]] })
  inject_connected := fun s _ _ => s + 2
  inject_disconnected := fun s _ _ => s + 3
  inject_node_event := fun s _ _ => s + 5
  poll := fun s params => (s, params.topology, none)

/-- Concrete behaviour that always asks to dial the given peer. -/
def bDialPeer (p : PeerId) : NetworkBehaviour Unit (List Multiaddr) where
  new_handler := fun s => (s, { protocolInfo := [[1]] })
  inject_connected := fun s _ _ => s
  inject_disconnected := fun s _ _ => s
  inject_node_event := fun s _ _ => s
  poll := fun s params => (s, params.topology, some (NetworkBehaviourAction.DialPeer p))

/-- Empty concrete manager state. -/
def mgr0 : MgrState := { script := [], connectedPeers := [], pendingPeers := [] }

/-- Base concrete Swarm state for the quiet behaviour. -/
def stBase : Swarm Nat (List Multiaddr) MgrState where
  raw_swarm := mgr0
  behaviour := 0
  topology := []
  supported_protocols := [[1], [2]]
  listened_addrs := []

/-- Concrete state whose manager will report a node event. -/
def stNodeEvent : Swarm Nat (List Multiaddr) MgrState :=
  { stBase with raw_swarm := { mgr0 with script := [some (RawSwarmEvent.NodeEvent 2 5)] } }

/-- Concrete state whose manager will report a replaced connection. -/
def stReplaced : Swarm Nat (List Multiaddr) MgrState :=
  { stBase with raw_swarm := { mgr0 with script := [some (RawSwarmEvent.Replaced 4 11 12)] } }

/-- Concrete state whose manager reports peer one as connected. -/
def stConnPeer : Swarm Nat (List Multiaddr) MgrState :=
  { stBase with raw_swarm := { mgr0 with connectedPeers := [1] } }

/-- Initial state of the always-dial scenario: no peer connected or
pending, manager always not ready. -/
def st9 : Swarm Unit (List Multiaddr) MgrState where
  raw_swarm := mgr0
  behaviour := ()
  topology := []
  supported_protocols := [[1]]
  listened_addrs := []

/-- The always-dial scenario state once peer seven is pending. -/
def st9p : Swarm Unit (List Multiaddr) MgrState :=
  { st9 with raw_swarm := { mgr0 with pendingPeers := [7] } }

/-- Effect that is a fresh-handler request to the behaviour. -/
def isNewHandlerEffect : Effect → Bool
  | Effect.cbNewHandler => true
  | _ => false

/-- A concrete state whose manager reports peer two as pending. -/
def stPendPeer : Swarm Nat (List Multiaddr) MgrState :=
  { stBase with raw_swarm := { mgr0 with pendingPeers := [2] } }

/-- The dispatch block emits, per event, exactly the callback list of the
specification mapping, independently of the behaviour and Swarm state. -/
theorem injectEvent_trace {σ τ ρ : Type} (B : NetworkBehaviour σ τ)
    (R : RawSwarmIface ρ) (me : Swarm σ τ ρ) (ev : RawSwarmEvent) :
    (injectEvent B R me ev).2 = specCallbacks ev := by
  cases ev <;> rfl

/-- The effect trace of a sub-cycle is the dispatch trace followed by the
trace of the action interpretation. -/
theorem subCycle_trace_decomp {σ τ ρ : Type} (B : NetworkBehaviour σ τ)
    (T : TopologyIface τ) (R : RawSwarmIface ρ) (me : Swarm σ τ ρ) :
    (subCycle B T R me).2.1 = (pollOnce B R me).2.2 ++ subCycleActionTrace B T R me := rfl

/-- The outcome of a sub-cycle is the outcome of the action interpretation
at the mid state, with the manager's not-ready flag and the behaviour's
action. -/
theorem subCycle_outcome_decomp {σ τ ρ : Type} (B : NetworkBehaviour σ τ)
    (T : TopologyIface τ) (R : RawSwarmIface ρ) (me : Swarm σ τ ρ) :
    (subCycle B T R me).2.2
      = (applyAction B T R (subCycleMid B R me) (pollOnce B R me).2.1
          (subCycleAction B R me)).2.2 := rfl

/-- The resulting state of a sub-cycle is the state of the action
interpretation at the mid state. -/
theorem subCycle_state_decomp {σ τ ρ : Type} (B : NetworkBehaviour σ τ)
    (T : TopologyIface τ) (R : RawSwarmIface ρ) (me : Swarm σ τ ρ) :
    (subCycle B T R me).1
      = (applyAction B T R (subCycleMid B R me) (pollOnce B R me).2.1
          (subCycleAction B R me)).1 := rfl

/-- The raw_swarm_not_ready flag of a sub-cycle is set exactly when the
manager's poll produced nothing. -/
theorem pollOnce_flag {σ τ ρ : Type} (B : NetworkBehaviour σ τ)
    (R : RawSwarmIface ρ) (me : Swarm σ τ ρ) :
    (pollOnce B R me).2.1 = ((R.poll me.raw_swarm).2).isNone := by
  rcases hp : R.poll me.raw_swarm with ⟨raw, mev⟩
  cases mev <;> simp [pollOnce, hp]

/-- When the manager's poll produced an event, the dispatch trace of the
sub-cycle is the specification mapping of that event. -/
theorem pollOnce_trace_event {σ τ ρ : Type} (B : NetworkBehaviour σ τ)
    (R : RawSwarmIface ρ) (me : Swarm σ τ ρ) (raw : ρ) (ev : RawSwarmEvent)
    (h : R.poll me.raw_swarm = (raw, some ev)) :
    (pollOnce B R me).2.2 = specCallbacks ev := by
  simp [pollOnce, h, injectEvent_trace]

/-- The action interpretation suspends exactly when the behaviour was not
ready and the manager's not-ready flag is set. -/
theorem applyAction_notReady_iff {σ τ ρ : Type} (B : NetworkBehaviour σ τ)
    (T : TopologyIface τ) (R : RawSwarmIface ρ) (me : Swarm σ τ ρ)
    (nr : Bool) (act : Option NetworkBehaviourAction) :
    (applyAction B T R me nr act).2.2 = some PollOutcome.notReady ↔
      (nr = true ∧ act = none) := by
  rcases act with _ | a
  · cases nr <;> simp [applyAction]
  · cases a with
    | GenerateEvent e => simp [applyAction]
    | DialAddress a => simp [applyAction]
    | DialPeer p => simp [applyAction]
    | SendEvent p e =>
        cases h : R.peerState me.raw_swarm p <;> simp [applyAction, h]
    | ReportObservedAddr a => simp [applyAction]

/-- The action interpretation never produces an end-of-sequence or error
outcome. -/
theorem applyAction_outcomeOk {σ τ ρ : Type} (B : NetworkBehaviour σ τ)
    (T : TopologyIface τ) (R : RawSwarmIface ρ) (me : Swarm σ τ ρ)
    (nr : Bool) (act : Option NetworkBehaviourAction) :
    outcomeOk (applyAction B T R me nr act).2.2 = true := by
  rcases act with _ | a
  · cases nr <;> simp [applyAction, outcomeOk]
  · cases a with
    | GenerateEvent e => simp [applyAction, outcomeOk]
    | DialAddress a => simp [applyAction, outcomeOk]
    | DialPeer p => simp [applyAction, outcomeOk]
    | SendEvent p e =>
        cases h : R.peerState me.raw_swarm p <;> simp [applyAction, h, outcomeOk]
    | ReportObservedAddr a => simp [applyAction, outcomeOk]

/-- A sub-cycle never produces an end-of-sequence or error outcome. -/
theorem subCycle_outcomeOk {σ τ ρ : Type} (B : NetworkBehaviour σ τ)
    (T : TopologyIface τ) (R : RawSwarmIface ρ) (me : Swarm σ τ ρ) :
    outcomeOk (subCycle B T R me).2.2 = true := by
  rw [subCycle_outcome_decomp]
  exact applyAction_outcomeOk B T R _ _ _

/-- Dispatching a lifecycle event never touches the supported-protocol
set. -/
theorem injectEvent_supported {σ τ ρ : Type} (B : NetworkBehaviour σ τ)
    (R : RawSwarmIface ρ) (me : Swarm σ τ ρ) (ev : RawSwarmEvent) :
    (injectEvent B R me ev).1.supported_protocols = me.supported_protocols := by
  cases ev <;> rfl

/-- Step 1 of a sub-cycle never touches the supported-protocol set. -/
theorem pollOnce_supported {σ τ ρ : Type} (B : NetworkBehaviour σ τ)
    (R : RawSwarmIface ρ) (me : Swarm σ τ ρ) :
    (pollOnce B R me).1.supported_protocols = me.supported_protocols := by
  rcases hp : R.poll me.raw_swarm with ⟨raw, mev⟩
  cases mev <;> simp [pollOnce, hp, injectEvent_supported]

/-- Swarm::listen_on never touches the supported-protocol set. -/
theorem listen_on_supported {σ τ ρ : Type} (R : RawSwarmIface ρ)
    (me : Swarm σ τ ρ) (addr : Multiaddr) :
    (Swarm.listen_on R me addr).1.supported_protocols = me.supported_protocols := by
  rcases h : R.listen_on me.raw_swarm addr with ⟨raw, mb⟩
  cases mb <;> simp [Swarm.listen_on, h]

/-- Swarm::dial_addr never touches the supported-protocol set. -/
theorem dial_addr_supported {σ τ ρ : Type} (B : NetworkBehaviour σ τ)
    (R : RawSwarmIface ρ) (me : Swarm σ τ ρ) (addr : Multiaddr) :
    (Swarm.dial_addr B R me addr).1.supported_protocols = me.supported_protocols := rfl

/-- Swarm::dial never touches the supported-protocol set. -/
theorem dial_supported {σ τ ρ : Type} (B : NetworkBehaviour σ τ)
    (T : TopologyIface τ) (R : RawSwarmIface ρ) (me : Swarm σ τ ρ) (p : PeerId) :
    (Swarm.dial B T R me p).1.supported_protocols = me.supported_protocols := by
  cases h : R.peerState me.raw_swarm p <;> simp [Swarm.dial, h]

/-- The interpretation of a behaviour action never touches the
supported-protocol set. -/
theorem applyAction_supported {σ τ ρ : Type} (B : NetworkBehaviour σ τ)
    (T : TopologyIface τ) (R : RawSwarmIface ρ) (me : Swarm σ τ ρ)
    (nr : Bool) (act : Option NetworkBehaviourAction) :
    (applyAction B T R me nr act).1.supported_protocols = me.supported_protocols := by
  rcases act with _ | a
  · cases nr <;> simp [applyAction]
  · cases a with
    | GenerateEvent e => simp [applyAction]
    | DialAddress a => simpa [applyAction] using dial_addr_supported B R me a
    | DialPeer p => simpa [applyAction] using dial_supported B T R me p
    | SendEvent p e =>
        cases h : R.peerState me.raw_swarm p <;> simp [applyAction, h]
    | ReportObservedAddr a => simp [applyAction]

/-- One sub-cycle of the drive loop never touches the supported-protocol
set. -/
theorem subCycle_supported {σ τ ρ : Type} (B : NetworkBehaviour σ τ)
    (T : TopologyIface τ) (R : RawSwarmIface ρ) (me : Swarm σ τ ρ) :
    (subCycle B T R me).1.supported_protocols = me.supported_protocols := by
  rw [subCycle_state_decomp, applyAction_supported]
  have hmid : (subCycleMid B R me).supported_protocols
      = (pollOnce B R me).1.supported_protocols := rfl
  rw [hmid, pollOnce_supported]

/-- The whole fueled drive loop never touches the supported-protocol
set. -/
theorem pollFuel_supported {σ τ ρ : Type} (B : NetworkBehaviour σ τ)
    (T : TopologyIface τ) (R : RawSwarmIface ρ) :
    ∀ (n : Nat) (me : Swarm σ τ ρ),
      (pollFuel B T R n me).1.supported_protocols = me.supported_protocols := by
  intro n
  induction n with
  | zero => intro me; rfl
  | succ n ih =>
      intro me
      have hsub := subCycle_supported B T R me
      rcases h : (subCycle B T R me).2.2 with _ | out
      · simp [pollFuel, h, ih, hsub]
      · simp [pollFuel, h, hsub]

/-- Folding listen_on: the final length of the listened-address list is
the initial length plus the number of successful calls. -/
theorem listenSequence_len {σ τ ρ : Type} (R : RawSwarmIface ρ) :
    ∀ (addrs : List Multiaddr) (me : Swarm σ τ ρ),
      ((listenSequence R me addrs).1.listened_addrs).length
        = me.listened_addrs.length + okCount (listenSequence R me addrs).2 := by
  intro addrs
  induction addrs with
  | nil => intro me; simp [listenSequence, okCount]
  | cons a rest ih =>
      intro me
      rcases h : R.listen_on me.raw_swarm a with ⟨raw, mb⟩
      cases mb with
      | none =>
          simp [listenSequence, Swarm.listen_on, h, okCount, List.countP_cons] at ih ⊢
          rw [ih]
      | some bound =>
          simp [listenSequence, Swarm.listen_on, h, okCount, List.countP_cons] at ih ⊢
          rw [ih]
          simp [List.length_append]
          omega

/-- A run of fresh-handler callbacks contains no connection-manager dial
call. -/
theorem replicate_newHandler_no_dial :
    ∀ m : Nat, (List.replicate m Effect.cbNewHandler).filter isMgrDialEffect = [] := by
  intro m
  induction m with
  | zero => rfl
  | succ m ih => simp [List.replicate_succ, List.filter_cons, isMgrDialEffect, ih]

/-- C1: during one drive cycle, each lifecycle event yielded by the
connection manager is translated into exactly the fixed callback mapping,
in order: a node-level event gives the node-event callback, connected the
connected callback, closed and errored the disconnected callback, replaced
the disconnected then connected pair, an incoming connection one fresh
handler request and an unconditional accept, and the four variants
listener-closed, incoming-connection-error, dial-error and
unknown-peer-dial-error give no callback; the sub-cycle's trace is the
mapping of the event followed only by the action interpretation, so
callbacks are never reordered, batched or dropped beyond those four
variants. -/
theorem C1_callback_mapping {σ τ ρ : Type} (B : NetworkBehaviour σ τ)
    (T : TopologyIface τ) (R : RawSwarmIface ρ) :
    (∀ (me : Swarm σ τ ρ) (ev : RawSwarmEvent),
        (injectEvent B R me ev).2 = specCallbacks ev)
    ∧ (∀ (me : Swarm σ τ ρ) (raw : ρ) (ev : RawSwarmEvent),
        R.poll me.raw_swarm = (raw, some ev) →
        (subCycle B T R me).2.1 = specCallbacks ev ++ subCycleActionTrace B T R me) := by
  constructor
  · intro me ev
    exact injectEvent_trace B R me ev
  · intro me raw ev h
    rw [subCycle_trace_decomp, pollOnce_trace_event B R me raw ev h]

/-- Witness for C1 at concrete inputs: a connected event maps to the
connected callback, and a sub-cycle whose manager yields a node event has
the node-event callback trace followed by the action trace. -/
theorem C1_callback_mapping_witness :
    (injectEvent bQuiet mgrIface stBase (RawSwarmEvent.Connected 3 7)).2
        = specCallbacks (RawSwarmEvent.Connected 3 7)
    ∧ (subCycle bQuiet topoIface mgrIface stNodeEvent).2.1
        = specCallbacks (RawSwarmEvent.NodeEvent 2 5)
            ++ subCycleActionTrace bQuiet topoIface mgrIface stNodeEvent :=
  ⟨(C1_callback_mapping bQuiet topoIface mgrIface).1 stBase (RawSwarmEvent.Connected 3 7),
   (C1_callback_mapping bQuiet topoIface mgrIface).2 stNodeEvent mgr0
     (RawSwarmEvent.NodeEvent 2 5) (by decide)⟩

/-- C2: a sub-cycle of the pull suspends (returns the not-ready outcome)
exactly when the behaviour's poll returned not ready and the manager's
poll had returned nothing in the same sub-cycle; if the behaviour is not
ready but the manager did produce an event, the sub-cycle ends with no
outcome, so the loop restarts at step 1 instead of suspending. -/
theorem C2_suspend_iff {σ τ ρ : Type} (B : NetworkBehaviour σ τ)
    (T : TopologyIface τ) (R : RawSwarmIface ρ) (me : Swarm σ τ ρ) :
    ((subCycle B T R me).2.2 = some PollOutcome.notReady ↔
      ((R.poll me.raw_swarm).2 = none ∧ subCycleAction B R me = none))
    ∧ (subCycleAction B R me = none → (R.poll me.raw_swarm).2 ≠ none →
        (subCycle B T R me).2.2 = none) := by
  constructor
  · rw [subCycle_outcome_decomp, applyAction_notReady_iff, pollOnce_flag]
    simp [Option.isNone_iff_eq_none, and_comm]
  · intro ha hnone
    have hflag : (pollOnce B R me).2.1 = false := by
      rw [pollOnce_flag]
      rcases hmev : (R.poll me.raw_swarm).2 with _ | ev
      · exact absurd hmev hnone
      · rfl
    rw [subCycle_outcome_decomp, ha, hflag]
    simp [applyAction]

/-- Witness for C2 at concrete inputs: with a quiet behaviour, the
sub-cycle whose manager yields an event does not suspend, and the
suspension equivalence holds at the empty-manager state. -/
theorem C2_suspend_iff_witness :
    (subCycle bQuiet topoIface mgrIface stNodeEvent).2.2 = none
    ∧ ((subCycle bQuiet topoIface mgrIface stBase).2.2 = some PollOutcome.notReady ↔
        ((mgrIface.poll stBase.raw_swarm).2 = none
          ∧ subCycleAction bQuiet mgrIface stBase = none)) :=
  ⟨(C2_suspend_iff bQuiet topoIface mgrIface stNodeEvent).2 (by decide) (by decide),
   (C2_suspend_iff bQuiet topoIface mgrIface stBase).1⟩

/-- C3: a replaced-connection event for a peer yields the disconnected
callback with the old endpoint immediately followed by the connected
callback with the new endpoint, at the very front of the sub-cycle's
trace, with nothing interleaved between the two. -/
theorem C3_replaced_adjacent {σ τ ρ : Type} (B : NetworkBehaviour σ τ)
    (T : TopologyIface τ) (R : RawSwarmIface ρ) (me : Swarm σ τ ρ)
    (p : PeerId) (cep ep : ConnectedPoint) (raw : ρ)
    (h : R.poll me.raw_swarm = (raw, some (RawSwarmEvent.Replaced p cep ep))) :
    (subCycle B T R me).2.1
      = Effect.cbDisconnected p cep :: Effect.cbConnected p ep ::
          subCycleActionTrace B T R me := by
  rw [subCycle_trace_decomp,
      pollOnce_trace_event B R me raw (RawSwarmEvent.Replaced p cep ep) h]
  rfl

/-- Witness for C3 at a concrete input: the replaced event for peer four
with endpoints eleven and twelve produces the adjacent disconnected and
connected pair at the front of the trace. -/
theorem C3_replaced_adjacent_witness :
    (subCycle bQuiet topoIface mgrIface stReplaced).2.1
      = Effect.cbDisconnected 4 11 :: Effect.cbConnected 4 12 ::
          subCycleActionTrace bQuiet topoIface mgrIface stReplaced :=
  C3_replaced_adjacent bQuiet topoIface mgrIface stReplaced 4 11 12 mgr0 (by decide)

/-- C4: the supported-protocol set is computed at construction from one
freshly built handler of the behaviour, the poll context always exposes
the Swarm's current field unchanged, and listen_on, dial_addr, dial and
arbitrarily many drive sub-cycles never change that field. -/
theorem C4_frozen_protocols {σ τ ρ : Type} (B : NetworkBehaviour σ τ)
    (T : TopologyIface τ) (R : RawSwarmIface ρ) :
    (∀ (b0 : σ) (t0 : τ),
        (Swarm.new B T R b0 t0).supported_protocols = (B.new_handler b0).2.protocolInfo)
    ∧ (∀ me : Swarm σ τ ρ, (mkParams R me).supported_protocols = me.supported_protocols)
    ∧ (∀ (me : Swarm σ τ ρ) (addr : Multiaddr),
        (Swarm.listen_on R me addr).1.supported_protocols = me.supported_protocols)
    ∧ (∀ (me : Swarm σ τ ρ) (addr : Multiaddr),
        (Swarm.dial_addr B R me addr).1.supported_protocols = me.supported_protocols)
    ∧ (∀ (me : Swarm σ τ ρ) (p : PeerId),
        (Swarm.dial B T R me p).1.supported_protocols = me.supported_protocols)
    ∧ (∀ (n : Nat) (me : Swarm σ τ ρ),
        (pollFuel B T R n me).1.supported_protocols = me.supported_protocols) := by
  refine ⟨fun b0 t0 => rfl, fun me => rfl, ?_, ?_, ?_, ?_⟩
  · exact listen_on_supported R
  · exact dial_addr_supported B R
  · exact dial_supported B T R
  · exact pollFuel_supported B T R

/-- C5: a successful listen_on appends the possibly rewritten bound
address and returns it; a failing one returns the original address and
leaves the Swarm's lists unchanged; over any sequence of listen_on calls
the listened-address list never shrinks and its final length is the
initial length plus exactly the number of successful calls. -/
theorem C5_listen_on_spec {σ τ ρ : Type} (R : RawSwarmIface ρ) :
    (∀ (me : Swarm σ τ ρ) (addr : Multiaddr) (raw : ρ) (bound : Multiaddr),
        R.listen_on me.raw_swarm addr = (raw, some bound) →
        Swarm.listen_on R me addr
          = ({ me with raw_swarm := raw, listened_addrs := me.listened_addrs ++ [bound] },
             Except.ok bound))
    ∧ (∀ (me : Swarm σ τ ρ) (addr : Multiaddr) (raw : ρ),
        R.listen_on me.raw_swarm addr = (raw, none) →
        Swarm.listen_on R me addr = ({ me with raw_swarm := raw }, Except.error addr))
    ∧ (∀ (me : Swarm σ τ ρ) (addrs : List Multiaddr),
        me.listened_addrs.length ≤ ((listenSequence R me addrs).1.listened_addrs).length)
    ∧ (∀ (me : Swarm σ τ ρ) (addrs : List Multiaddr),
        ((listenSequence R me addrs).1.listened_addrs).length
          = me.listened_addrs.length + okCount (listenSequence R me addrs).2) := by
  refine ⟨?_, ?_, ?_, ?_⟩
  · intro me addr raw bound h
    simp [Swarm.listen_on, h]
  · intro me addr raw h
    simp [Swarm.listen_on, h]
  · intro me addrs
    rw [listenSequence_len R addrs me]
    omega
  · intro me addrs
    exact listenSequence_len R addrs me

/-- Witness for C5 at concrete inputs: listening on address four succeeds
and appends the rewritten address, listening on address three fails and
returns the original address with unchanged state. -/
theorem C5_listen_on_spec_witness :
    Swarm.listen_on mgrIface stBase 4
      = ({ stBase with listened_addrs := [104] }, Except.ok 104)
    ∧ Swarm.listen_on mgrIface stBase 3 = (stBase, Except.error 3) :=
  ⟨(C5_listen_on_spec mgrIface).1 stBase 4 mgr0 104 (by decide),
   (C5_listen_on_spec mgrIface).2.1 stBase 3 mgr0 (by decide)⟩

/-- C6: dialing a peer the manager reports as already connected or already
being dialed performs no connection-manager dial call and leaves the
manager state untouched. -/
theorem C6_noop_dial {σ τ ρ : Type} (B : NetworkBehaviour σ τ)
    (T : TopologyIface τ) (R : RawSwarmIface ρ) (me : Swarm σ τ ρ) (p : PeerId)
    (h : R.peerState me.raw_swarm p = PeerState.connected ∨
         R.peerState me.raw_swarm p = PeerState.pendingConnect) :
    (Swarm.dial B T R me p).1.raw_swarm = me.raw_swarm
    ∧ ((Swarm.dial B T R me p).2.filter isMgrDialEffect) = [] := by
  rcases h with h | h <;> simp [Swarm.dial, h, isMgrDialEffect]

/-- Witness for C6 at a concrete input: dialing the already connected peer
one leaves the manager state untouched and performs no manager dial. -/
theorem C6_noop_dial_witness :
    (Swarm.dial bQuiet topoIface mgrIface stConnPeer 1).1.raw_swarm
        = stConnPeer.raw_swarm
    ∧ ((Swarm.dial bQuiet topoIface mgrIface stConnPeer 1).2.filter isMgrDialEffect)
        = [] :=
  C6_noop_dial bQuiet topoIface mgrIface stConnPeer 1 (Or.inl (by decide))

/-- C7: a send-event action for a currently connected peer forwards the
event to that peer through the manager; for a peer that is not connected
it is silently discarded with no manager call, and in both cases the
sub-cycle produces no outcome, so the loop restarts without blocking. -/
theorem C7_send_event {σ τ ρ : Type} (B : NetworkBehaviour σ τ)
    (T : TopologyIface τ) (R : RawSwarmIface ρ) (me : Swarm σ τ ρ)
    (p : PeerId) (e : Nat) (nr : Bool) :
    (R.peerState me.raw_swarm p = PeerState.connected →
      applyAction B T R me nr (some (NetworkBehaviourAction.SendEvent p e))
        = ({ me with raw_swarm := R.send_event me.raw_swarm p e },
           [Effect.mgrSendEvent p e], none))
    ∧ (R.peerState me.raw_swarm p ≠ PeerState.connected →
      applyAction B T R me nr (some (NetworkBehaviourAction.SendEvent p e))
        = (me, [], none)) := by
  constructor
  · intro h
    simp [applyAction, h]
  · intro h
    cases hs : R.peerState me.raw_swarm p with
    | connected => exact absurd hs h
    | pendingConnect => simp [applyAction, hs]
    | notConnected => simp [applyAction, hs]

/-- Witness for C7 at concrete inputs: sending to the connected peer one
forwards the event, sending to the disconnected peer one at the base state
is discarded with no manager call and no outcome. -/
theorem C7_send_event_witness :
    applyAction bQuiet topoIface mgrIface stConnPeer true
        (some (NetworkBehaviourAction.SendEvent 1 9))
      = (stConnPeer, [Effect.mgrSendEvent 1 9], none)
    ∧ applyAction bQuiet topoIface mgrIface stBase true
        (some (NetworkBehaviourAction.SendEvent 1 9))
      = (stBase, [], none) :=
  ⟨(C7_send_event bQuiet topoIface mgrIface stConnPeer 1 9 true).1 (by decide),
   (C7_send_event bQuiet topoIface mgrIface stBase 1 9 true).2 (by decide)⟩

/-- C8: a pull of the Swarm only ever delivers an event or the not-ready
outcome: for any fuel and any state, the fueled drive loop never produces
the end-of-sequence outcome and never an error outcome, and the resulting
state can always be pulled again. -/
theorem C8_pull_outcome {σ τ ρ : Type} (B : NetworkBehaviour σ τ)
    (T : TopologyIface τ) (R : RawSwarmIface ρ) :
    ∀ (fuel : Nat) (me : Swarm σ τ ρ),
      outcomeOk (pollFuel B T R fuel me).2.2 = true := by
  intro fuel
  induction fuel with
  | zero => intro me; rfl
  | succ n ih =>
      intro me
      rcases h : (subCycle B T R me).2.2 with _ | out
      · simp [pollFuel, h, ih]
      · have hok := subCycle_outcomeOk B T R me
        rw [h] at hok
        simp [pollFuel, h, hok]

/-- C9: in the always-dial scenario (a behaviour that always returns
dial-peer for peer seven, a topology mapping peer seven to the single
address seventy, a manager that is never ready), one external pull of any
positive number of sub-cycles issues exactly one connection-manager dial,
to address seventy: the internal re-loop does not duplicate the dial
within one pull. -/
theorem C9_single_dial_per_pull (n : Nat) :
    ((pollFuel (bDialPeer 7) topoIface mgrIface (n + 1) st9).2.1.filter isMgrDialEffect)
      = [Effect.mgrConnectIter 7 [70]] := by
  have hstep : subCycle (bDialPeer 7) topoIface mgrIface st9
      = (st9p, [Effect.cbNewHandler, Effect.mgrConnectIter 7 [70]], none) := by decide
  have hrep : ∀ m, pollFuel (bDialPeer 7) topoIface mgrIface m st9p
      = (st9p, List.replicate m Effect.cbNewHandler, none) := by
    intro m
    induction m with
    | zero => rfl
    | succ m ih =>
        have hstp : subCycle (bDialPeer 7) topoIface mgrIface st9p
            = (st9p, [Effect.cbNewHandler], none) := by decide
        simp [pollFuel, hstp, ih, List.replicate_succ]
  simp [pollFuel, hstep, hrep, List.filter_append, List.filter_cons,
        isMgrDialEffect, replicate_newHandler_no_dial]

/-- C10: every call to dial asks the behaviour for exactly one fresh
handler before the peer state is checked: the resulting behaviour state is
the one the new-handler call produces, the first effect is the fresh
handler request, the trace holds exactly one such request, and in the
no-op case (peer connected or pending) nothing else happens, so even the
no-op case mutates the behaviour through the new-handler call. -/
theorem C10_dial_new_handler {σ τ ρ : Type} (B : NetworkBehaviour σ τ)
    (T : TopologyIface τ) (R : RawSwarmIface ρ) (me : Swarm σ τ ρ) (p : PeerId) :
    (Swarm.dial B T R me p).1.behaviour = (B.new_handler me.behaviour).1
    ∧ (Swarm.dial B T R me p).2.head? = some Effect.cbNewHandler
    ∧ ((Swarm.dial B T R me p).2.countP isNewHandlerEffect) = 1
    ∧ (R.peerState me.raw_swarm p ≠ PeerState.notConnected →
        Swarm.dial B T R me p
          = ({ me with behaviour := (B.new_handler me.behaviour).1 },
             [Effect.cbNewHandler])) := by
  refine ⟨?_, ?_, ?_, ?_⟩
  · cases h : R.peerState me.raw_swarm p <;> simp [Swarm.dial, h]
  · cases h : R.peerState me.raw_swarm p <;> simp [Swarm.dial, h]
  · cases h : R.peerState me.raw_swarm p <;>
      simp [Swarm.dial, h, List.countP_cons, isNewHandlerEffect]
  · intro h
    cases hs : R.peerState me.raw_swarm p with
    | connected => simp [Swarm.dial, hs]
    | pendingConnect => simp [Swarm.dial, hs]
    | notConnected => exact absurd hs h

/-- Witness for C10 at a concrete input: dialing the pending peer two
still advances the behaviour state through one fresh-handler request and
does nothing else. -/
theorem C10_dial_new_handler_witness :
    Swarm.dial bQuiet topoIface mgrIface stPendPeer 2
      = ({ stPendPeer with behaviour := 1 }, [Effect.cbNewHandler]) :=
  (C10_dial_new_handler bQuiet topoIface mgrIface stPendPeer 2).2.2.2 (by decide)
